import Mathlib

/-!
Verification of the AE483 custom LQR flight controller
(`controller_custom_lqr.c`): a shallow embedding of the per-tick
estimation/control pipeline (measurement buffering, reset handling,
internal observer vs. pass-through state estimation, LQR state feedback,
motor mixing and saturation), together with theorems settling the
specified properties.

Scalars are modelled as exact rationals (the C code uses `float`); the
transcendental operations used only by the pass-through branch
(`cosf`, `sinf`, and the constant pi inside `radians`) are abstracted
into a `Trig` parameter, since no verified property depends on their
values.  The `uint16_t` sensor counters are modelled as naturals reduced
modulo 2^16, matching C unsigned wraparound.
-/

namespace AE483

/-- Abstraction of the floating-point transcendental library used by the
pass-through branch: `cosf`, `sinf`, and the constant pi used by
`radians`. -/
structure Trig where
  cosf : ℚ → ℚ
  sinf : ℚ → ℚ
  pi : ℚ

/-- The `radians` helper from math3d.h: degrees-to-radians conversion
`(M_PI_F / 180.0f) * degrees`. -/
def radians (t : Trig) (degrees : ℚ) : ℚ :=
  (t.pi / 180) * degrees

/-- tofMeasurement_t: the fields read by `ae483UpdateWithTOF`. -/
structure TofMeasurement where
  distance : ℚ
  deriving DecidableEq

/-- flowMeasurement_t: the fields read by `ae483UpdateWithFlow`. -/
structure FlowMeasurement where
  dpixelx : ℚ
  dpixely : ℚ
  deriving DecidableEq

/-- A 3-vector of scalars (positions, velocities, gyro rates, ...). -/
structure Vec3 where
  x : ℚ
  y : ℚ
  z : ℚ
  deriving DecidableEq

/-- attitude_t as used here: roll, pitch, yaw in degrees. -/
structure AttitudeA where
  roll : ℚ
  pitch : ℚ
  yaw : ℚ
  deriving DecidableEq

/-- sensorData_t: the fields read by `controllerAE483` (gyro in deg/s,
accelerometer in g units). -/
structure SensorData where
  gyro : Vec3
  acc : Vec3
  deriving DecidableEq

/-- state_t: the externally supplied state estimate fields read by the
pass-through branch. -/
structure StateExt where
  position : Vec3
  attitude : AttitudeA
  velocity : Vec3
  deriving DecidableEq

/-- stab_mode_t: setpoint axis modes; only `modeDisable` is
distinguished by this controller. -/
inductive StabMode where
  | modeDisable : StabMode
  | modeAbs : StabMode
  | modeVelocity : StabMode
  deriving DecidableEq

/-- The per-axis mode field of setpoint_t; only `z` is read. -/
structure SetpointMode where
  z : StabMode
  deriving DecidableEq

/-- setpoint_t: the fields read by `controllerAE483`. -/
structure Setpoint where
  position : Vec3
  mode : SetpointMode
  deriving DecidableEq

/-- The complete file-scope mutable state of controller_custom_lqr.c:
sensor buffers and counters, parameter flags, state estimate, desired
position, control efforts, motor commands, buffered measurements and
measurement residuals. -/
structure CtrlState where
  tof_count : ℕ
  tof_distance : ℚ
  flow_count : ℕ
  flow_dpixelx : ℚ
  flow_dpixely : ℚ
  use_observer : Bool
  reset_observer : Bool
  o_x : ℚ
  o_y : ℚ
  o_z : ℚ
  psi : ℚ
  theta : ℚ
  phi : ℚ
  v_x : ℚ
  v_y : ℚ
  v_z : ℚ
  w_x : ℚ
  w_y : ℚ
  w_z : ℚ
  o_x_des : ℚ
  o_y_des : ℚ
  o_z_des : ℚ
  tau_x : ℚ
  tau_y : ℚ
  tau_z : ℚ
  f_z : ℚ
  m_1 : ℕ
  m_2 : ℕ
  m_3 : ℕ
  m_4 : ℕ
  n_x : ℚ
  n_y : ℚ
  r : ℚ
  a_z : ℚ
  n_x_err : ℚ
  n_y_err : ℚ
  r_err : ℚ
  deriving DecidableEq

/-- The initial values of the file-scope variables. -/
def initState : CtrlState where
  tof_count := 0
  tof_distance := 0
  flow_count := 0
  flow_dpixelx := 0
  flow_dpixely := 0
  use_observer := false
  reset_observer := false
  o_x := 0
  o_y := 0
  o_z := 0
  psi := 0
  theta := 0
  phi := 0
  v_x := 0
  v_y := 0
  v_z := 0
  w_x := 0
  w_y := 0
  w_z := 0
  o_x_des := 0
  o_y_des := 0
  o_z_des := 0
  tau_x := 0
  tau_y := 0
  tau_z := 0
  f_z := 0
  m_1 := 0
  m_2 := 0
  m_3 := 0
  m_4 := 0
  n_x := 0
  n_y := 0
  r := 0
  a_z := 0
  n_x_err := 0
  n_y_err := 0
  r_err := 0

/-- Constant `k_flow = 4.09255568f`. -/
def k_flow : ℚ := 4.09255568

/-- Constant `g = 9.81f`. -/
def g : ℚ := 9.81

/-- Constant `dt = 0.002f` (500 Hz tick period). -/
def dt : ℚ := 0.002

/-- Constant `o_z_eq = 0.5f` (equilibrium / trim altitude). -/
def o_z_eq : ℚ := 0.5

/-- ae483UpdateWithTOF: overwrite the buffered range and increment the
uint16 sample counter (wrapping modulo 2^16). -/
def ae483UpdateWithTOF (s : CtrlState) (tof : TofMeasurement) : CtrlState :=
  { s with
    tof_distance := tof.distance
    tof_count := (s.tof_count + 1) % 65536 }

/-- ae483UpdateWithFlow: overwrite the buffered optical-flow sample and
increment the uint16 sample counter (wrapping modulo 2^16). -/
def ae483UpdateWithFlow (s : CtrlState) (flow : FlowMeasurement) : CtrlState :=
  { s with
    flow_dpixelx := flow.dpixelx
    flow_dpixely := flow.dpixely
    flow_count := (s.flow_count + 1) % 65536 }

/-- Truncation of a rational toward zero, the C float-to-integer
conversion applied at the argument of `limitUint16`. -/
def truncQ (q : ℚ) : ℤ :=
  if q < 0 then ⌈q⌉ else ⌊q⌋

/-- limitUint16 from num.h composed with the C float-to-int conversion:
truncate toward zero, then clamp into [0, 65535]. -/
def limitUint16 (q : ℚ) : ℕ :=
  let i := truncQ q
  if i < 0 then 0
  else if 65535 < i then 65535
  else i.toNat

/-- Lines 159-170 of controllerAE483: latch the desired position from
the setpoint, convert the gyro to rad/s, scale the z accelerometer by g,
and freeze the asynchronous flow/range buffers into this tick's
measurement variables. -/
def measUpdate (t : Trig) (s : CtrlState) (setpoint : Setpoint)
    (sensors : SensorData) : CtrlState :=
  { s with
    o_x_des := setpoint.position.x
    o_y_des := setpoint.position.y
    o_z_des := setpoint.position.z
    w_x := radians t sensors.gyro.x
    w_y := radians t sensors.gyro.y
    w_z := radians t sensors.gyro.z
    a_z := g * sensors.acc.z
    n_x := s.flow_dpixelx
    n_y := s.flow_dpixely
    r := s.tof_distance }

/-- Lines 172-183 of controllerAE483: if `reset_observer` is set, zero
the 9 integrated state variables and clear the flag. -/
def resetStep (s : CtrlState) : CtrlState :=
  if s.reset_observer then
    { s with
      o_x := 0
      o_y := 0
      o_z := 0
      psi := 0
      theta := 0
      phi := 0
      v_x := 0
      v_y := 0
      v_z := 0
      reset_observer := false }
  else s

/-- Lines 188-203 of controllerAE483 (internal observer branch): compute
the measurement residuals, then advance the 9 integrated state variables
in program order.  Note the C statements execute sequentially with `+=`,
so the `v_x` update reads the `theta` value already updated at line 199
and the `v_y` update reads the `phi` value already updated at line 200;
all other reads see previous-tick values. -/
def observerStep (s : CtrlState) : CtrlState :=
  let n_x_err := k_flow * ((s.v_x / o_z_eq) - s.w_y) - s.n_x
  let n_y_err := k_flow * (s.w_x + (s.v_y / o_z_eq)) - s.n_y
  let r_err := s.o_z - s.r
  let o_x := s.o_x + dt * s.v_x
  let o_y := s.o_y + dt * s.v_y
  let o_z := s.o_z + dt * (s.v_z - 3.524731 * r_err)
  let psi := s.psi + dt * s.w_z
  let theta := s.theta + dt * (s.w_y - 0.029925 * n_x_err)
  let phi := s.phi + dt * (s.w_x - (-0.024252 * n_y_err))
  let v_x := s.v_x + dt * (g * theta - 0.322134 * n_x_err)
  let v_y := s.v_y + dt * (-g * phi - 0.317070 * n_y_err)
  let v_z := s.v_z + dt * (s.a_z - g - 5.676619 * r_err)
  { s with
    n_x_err := n_x_err
    n_y_err := n_y_err
    r_err := r_err
    o_x := o_x
    o_y := o_y
    o_z := o_z
    psi := psi
    theta := theta
    phi := phi
    v_x := v_x
    v_y := v_y
    v_z := v_z }

/-- Lines 207-215 of controllerAE483 (pass-through branch): copy the
externally supplied position, set the attitude from the external Euler
angles (pitch sign inverted), and rotate the external velocity through
the just-computed Euler angles. -/
def passThroughStep (t : Trig) (s : CtrlState) (state : StateExt) : CtrlState :=
  let o_x := state.position.x
  let o_y := state.position.y
  let o_z := state.position.z
  let psi := radians t state.attitude.yaw
  let theta := - radians t state.attitude.pitch
  let phi := radians t state.attitude.roll
  let v_x := state.velocity.x * t.cosf psi * t.cosf theta
      + state.velocity.y * t.sinf psi * t.cosf theta
      - state.velocity.z * t.sinf theta
  let v_y := state.velocity.x * (t.sinf phi * t.sinf theta * t.cosf psi - t.sinf psi * t.cosf phi)
      + state.velocity.y * (t.sinf phi * t.sinf psi * t.sinf theta + t.cosf phi * t.cosf psi)
      + state.velocity.z * (t.sinf phi * t.cosf theta)
  let v_z := state.velocity.x * (t.sinf phi * t.sinf psi + t.sinf theta * t.cosf phi * t.cosf psi)
      + state.velocity.y * (-(t.sinf phi) * t.cosf psi + t.sinf psi * t.sinf theta * t.cosf phi)
      + state.velocity.z * (t.cosf phi * t.cosf theta)
  { s with
    o_x := o_x
    o_y := o_y
    o_z := o_z
    psi := psi
    theta := theta
    phi := phi
    v_x := v_x
    v_y := v_y
    v_z := v_z }

/-- Lines 186-216 of controllerAE483: select the estimator branch. -/
def estimateStep (t : Trig) (s : CtrlState) (state : StateExt) : CtrlState :=
  if s.use_observer then observerStep s else passThroughStep t s state

/-- Lines 218-239 of controllerAE483: if the z setpoint mode is
disabled, command zero power and leave the stored efforts and motor
commands untouched; otherwise compute the LQR control efforts, mix them
into the four motor commands with saturation, and command that power.
The second component is the argument tuple passed to `powerSet`. -/
def controlStep (s : CtrlState) (setpoint : Setpoint) :
    CtrlState × (ℕ × ℕ × ℕ × ℕ) :=
  if setpoint.mode.z = StabMode.modeDisable then
    (s, (0, 0, 0, 0))
  else
    let tau_x := 0.00239430 * (s.o_y - s.o_y_des) - 0.00346463 * s.phi
        + 0.00135445 * s.v_y - 0.00047651 * s.w_x
    let tau_y := -0.00223966 * (s.o_x - s.o_x_des) - 0.00734151 * s.theta
        - 0.00186963 * s.v_x - 0.00129356 * s.w_y
    let tau_z := -0.00164210 * s.psi - 0.00039822 * s.w_z
    let f_z := -0.11471886 * (s.o_z - s.o_z_des) - 0.09147906 * s.v_z + 0.35217900
    let m_1 := limitUint16 (-3706927.3 * tau_x - 3706927.3 * tau_y
        - 38218981.7 * tau_z + 122328.6 * f_z)
    let m_2 := limitUint16 (-3706927.3 * tau_x + 3706927.3 * tau_y
        + 38218981.7 * tau_z + 122328.6 * f_z)
    let m_3 := limitUint16 (3706927.3 * tau_x + 3706927.3 * tau_y
        - 38218981.7 * tau_z + 122328.6 * f_z)
    let m_4 := limitUint16 (3706927.3 * tau_x - 3706927.3 * tau_y
        + 38218981.7 * tau_z + 122328.6 * f_z)
    ({ s with
        tau_x := tau_x
        tau_y := tau_y
        tau_z := tau_z
        f_z := f_z
        m_1 := m_1
        m_2 := m_2
        m_3 := m_3
        m_4 := m_4 },
      (m_1, m_2, m_3, m_4))

/-- The body of controllerAE483's 500 Hz block (lines 156-239):
measurement latching, reset handling, state estimation, then control and
mixing.  Returns the new file-scope state and the `powerSet` argument
tuple. -/
def tickBody (t : Trig) (s : CtrlState) (setpoint : Setpoint)
    (sensors : SensorData) (state : StateExt) : CtrlState × (ℕ × ℕ × ℕ × ℕ) :=
  controlStep (estimateStep t (resetStep (measUpdate t s setpoint sensors)) state)
    setpoint

/-- controllerAE483: the 500 Hz block is gated by
`RATE_DO_EXECUTE(ATTITUDE_RATE, tick)`, i.e. it runs iff
`tick % (1000 / 500) == 0`.  On a skipped tick nothing changes and no
power is commanded (`none`). -/
def controllerAE483 (t : Trig) (s : CtrlState) (setpoint : Setpoint)
    (sensors : SensorData) (state : StateExt) (tick : ℕ) :
    CtrlState × Option (ℕ × ℕ × ℕ × ℕ) :=
  if tick % 2 = 0 then
    let out := tickBody t s setpoint sensors state
    (out.1, some out.2)
  else (s, none)

/-- The 12-element state estimate exposed by the estimator: position,
attitude, linear velocity, angular velocity. -/
def estFields (s : CtrlState) :
    ℚ × ℚ × ℚ × ℚ × ℚ × ℚ × ℚ × ℚ × ℚ × ℚ × ℚ × ℚ :=
  (s.o_x, s.o_y, s.o_z, s.psi, s.theta, s.phi,
   s.v_x, s.v_y, s.v_z, s.w_x, s.w_y, s.w_z)

/-- Zeroing of the 9 integrated state variables with the reset flag
cleared, as performed by lines 172-183. -/
def zeroObserver (s : CtrlState) : CtrlState :=
  { s with
    o_x := 0
    o_y := 0
    o_z := 0
    psi := 0
    theta := 0
    phi := 0
    v_x := 0
    v_y := 0
    v_z := 0
    reset_observer := false }

/-- A trivial instantiation of the trig abstraction, used to evaluate
concrete runs. -/
def trig0 : Trig where
  cosf := fun _ => 1
  sinf := fun _ => 0
  pi := 0

/-- The stored control efforts and motor commands (the telemetry-visible
controller outputs). -/
def ctrlFields (s : CtrlState) : ℚ × ℚ × ℚ × ℚ × ℕ × ℕ × ℕ × ℕ :=
  (s.tau_x, s.tau_y, s.tau_z, s.f_z, s.m_1, s.m_2, s.m_3, s.m_4)

/-- The pass-through-mode estimate as a function of its actual inputs
only (trig, external state, gyro): evaluated by running the code's own
pass-through path from a fixed base state. -/
def passOut (t : Trig) (state : StateExt) (sensors : SensorData) :
    ℚ × ℚ × ℚ × ℚ × ℚ × ℚ × ℚ × ℚ × ℚ × ℚ × ℚ × ℚ :=
  estFields (passThroughStep t
    (measUpdate t initState ⟨⟨0, 0, 0⟩, ⟨StabMode.modeAbs⟩⟩ sensors) state)

/-- The internal-observer-mode estimate as a function of its actual
inputs only (trig, previous 9 integrated state variables, buffered
range and flow samples, gyro and z accelerometer): evaluated by running
the code's own observer path from a base state carrying exactly those
inputs. -/
def obsOut (t : Trig) (oX oY oZ ps th ph vX vY vZ rng fdx fdy : ℚ)
    (sensors : SensorData) :
    ℚ × ℚ × ℚ × ℚ × ℚ × ℚ × ℚ × ℚ × ℚ × ℚ × ℚ × ℚ :=
  estFields (observerStep
    (measUpdate t
      { initState with
        o_x := oX
        o_y := oY
        o_z := oZ
        psi := ps
        theta := th
        phi := ph
        v_x := vX
        v_y := vY
        v_z := vZ
        tof_distance := rng
        flow_dpixelx := fdx
        flow_dpixely := fdy }
      ⟨⟨0, 0, 0⟩, ⟨StabMode.modeAbs⟩⟩ sensors))

/-- Zero sensor input (gyro and accelerometer all zero). -/
def sensors0 : SensorData := ⟨⟨0, 0, 0⟩, ⟨0, 0, 0⟩⟩

/-- Zero external state. -/
def extState0 : StateExt := ⟨⟨0, 0, 0⟩, ⟨0, 0, 0⟩, ⟨0, 0, 0⟩⟩

/-- An enabled setpoint at the origin. -/
def spEnabled0 : Setpoint := ⟨⟨0, 0, 0⟩, ⟨StabMode.modeAbs⟩⟩

/-- Observer mode with one buffered flow-sensor x count and everything
else at reset values. -/
def s4 : CtrlState := { initState with use_observer := true, flow_dpixelx := 1 }

/-- An external state with a nonzero position, distinct from the
estimator's previous position. -/
def st5 : StateExt := ⟨⟨1, 2, 3⟩, ⟨0, 0, 0⟩, ⟨0, 0, 0⟩⟩

/-- Observer mode with a nonzero rolled angular rate w_x. -/
def s6 : CtrlState := { initState with use_observer := true, w_x := 1 }

/-- Observer mode with a nonzero previous position and the reset flag
raised. -/
def s7a : CtrlState :=
  { initState with use_observer := true, o_x := 1, reset_observer := true }

/-- Observer mode with the same estimate and buffers as `s7a` but the
reset flag clear. -/
def s7b : CtrlState := { initState with use_observer := true, o_x := 1 }

/-- A state at rest at the trim altitude with the setpoint latched to
the current position. -/
def trimState : CtrlState := { initState with o_z := o_z_eq, o_z_des := o_z_eq }

/-- A state whose TOF sample counter sits at the uint16 maximum. -/
def s9 : CtrlState := { initState with tof_count := 65535 }

/-- A state carrying nonzero stored control efforts and motor commands
from a previous enabled tick. -/
def sC10 : CtrlState := { initState with tau_x := 7, f_z := 3, m_1 := 9, m_4 := 11 }

end AE483

namespace AE483

/-! ### Helper lemmas about the pipeline stages -/

theorem measUpdate_reset_observer (t : Trig) (s : CtrlState) (sp : Setpoint)
    (sen : SensorData) : (measUpdate t s sp sen).reset_observer = s.reset_observer :=
  rfl

theorem measUpdate_use_observer (t : Trig) (s : CtrlState) (sp : Setpoint)
    (sen : SensorData) : (measUpdate t s sp sen).use_observer = s.use_observer :=
  rfl

theorem resetStep_of_false (s : CtrlState) (h : s.reset_observer = false) :
    resetStep s = s := by
  unfold resetStep
  rw [h]
  simp

theorem resetStep_use_observer (s : CtrlState) :
    (resetStep s).use_observer = s.use_observer := by
  unfold resetStep
  split <;> rfl

theorem estimateStep_reset_observer (t : Trig) (s : CtrlState) (st : StateExt) :
    (estimateStep t s st).reset_observer = s.reset_observer := by
  unfold estimateStep observerStep passThroughStep
  split <;> rfl

theorem controlStep_fst_reset_observer (s : CtrlState) (sp : Setpoint) :
    ((controlStep s sp).1).reset_observer = s.reset_observer := by
  unfold controlStep
  split <;> rfl

theorem controlStep_fst_estFields (s : CtrlState) (sp : Setpoint) :
    estFields ((controlStep s sp).1) = estFields s := by
  unfold controlStep
  split <;> rfl

theorem reset_measUpdate_comm (t : Trig) (s : CtrlState) (sp : Setpoint)
    (sen : SensorData) (h : s.reset_observer = true) :
    resetStep (measUpdate t s sp sen) = measUpdate t (zeroObserver s) sp sen := by
  unfold resetStep measUpdate zeroObserver
  simp [h]

theorem tickBody_reset_elim (t : Trig) (s : CtrlState) (sp : Setpoint)
    (sen : SensorData) (st : StateExt) (h : s.reset_observer = true) :
    tickBody t s sp sen st = tickBody t (zeroObserver s) sp sen st := by
  unfold tickBody
  rw [reset_measUpdate_comm t s sp sen h,
      resetStep_of_false (measUpdate t (zeroObserver s) sp sen) rfl]

/-! ### C1 -/

/-- C1: for every state, sensor input and setpoint whose z mode is
DISABLED, a tick on which the 500 Hz block executes commands exactly
(0,0,0,0) motor power, unconditionally, with no feedback-controller
contribution. -/
theorem C1_disarm_safety (t : Trig) (s : CtrlState) (setpoint : Setpoint)
    (sensors : SensorData) (state : StateExt) (tick : ℕ)
    (hrate : tick % 2 = 0) (hz : setpoint.mode.z = StabMode.modeDisable) :
    (controllerAE483 t s setpoint sensors state tick).2 = some (0, 0, 0, 0) := by
  unfold controllerAE483 tickBody controlStep
  rw [hrate]
  simp [hz]

/-- Witness for C1 at a concrete disarmed run. -/
theorem C1_disarm_safety_witness :
    (controllerAE483 trig0 initState
        ⟨⟨1, 2, 3⟩, ⟨StabMode.modeDisable⟩⟩
        ⟨⟨4, 5, 6⟩, ⟨0, 0, 1⟩⟩
        ⟨⟨7, 8, 9⟩, ⟨10, 11, 12⟩, ⟨13, 14, 15⟩⟩ 0).2 = some (0, 0, 0, 0) :=
  C1_disarm_safety trig0 initState _ _ _ 0 (by decide) rfl

/-! ### C2 -/

/-- C2: if the reset flag is set when an executing tick runs, the tick
behaves exactly as if the 9 integrated state variables had been zeroed
and the flag cleared before estimation, and the flag reads false
afterwards (so the following tick sees it false absent an external
re-set). -/
theorem C2_reset_one_shot (t : Trig) (s : CtrlState) (setpoint : Setpoint)
    (sensors : SensorData) (state : StateExt) (tick : ℕ)
    (hrate : tick % 2 = 0) (hreset : s.reset_observer = true) :
    controllerAE483 t s setpoint sensors state tick
      = controllerAE483 t (zeroObserver s) setpoint sensors state tick
    ∧ (controllerAE483 t s setpoint sensors state tick).1.reset_observer = false := by
  constructor
  · unfold controllerAE483
    rw [if_pos hrate, tickBody_reset_elim t s setpoint sensors state hreset,
        if_pos hrate]
  · unfold controllerAE483
    rw [if_pos hrate]
    dsimp only
    unfold tickBody
    rw [controlStep_fst_reset_observer, estimateStep_reset_observer,
        reset_measUpdate_comm t s setpoint sensors hreset,
        measUpdate_reset_observer]
    rfl

/-- Witness for C2 at a concrete reset-requested run. -/
theorem C2_reset_one_shot_witness :
    (controllerAE483 trig0 { initState with reset_observer := true, o_x := 5 }
        ⟨⟨0, 0, 0⟩, ⟨StabMode.modeAbs⟩⟩ ⟨⟨0, 0, 0⟩, ⟨0, 0, 1⟩⟩
        ⟨⟨0, 0, 0⟩, ⟨0, 0, 0⟩, ⟨0, 0, 0⟩⟩ 0
      = controllerAE483 trig0 (zeroObserver { initState with reset_observer := true, o_x := 5 })
        ⟨⟨0, 0, 0⟩, ⟨StabMode.modeAbs⟩⟩ ⟨⟨0, 0, 0⟩, ⟨0, 0, 1⟩⟩
        ⟨⟨0, 0, 0⟩, ⟨0, 0, 0⟩, ⟨0, 0, 0⟩⟩ 0)
    ∧ (controllerAE483 trig0 { initState with reset_observer := true, o_x := 5 }
        ⟨⟨0, 0, 0⟩, ⟨StabMode.modeAbs⟩⟩ ⟨⟨0, 0, 0⟩, ⟨0, 0, 1⟩⟩
        ⟨⟨0, 0, 0⟩, ⟨0, 0, 0⟩, ⟨0, 0, 0⟩⟩ 0).1.reset_observer = false :=
  C2_reset_one_shot trig0 _ _ _ _ 0 (by decide) rfl

/-! ### C3 -/

theorem limitUint16_eq (q : ℚ) :
    limitUint16 q = if truncQ q < 0 then 0
      else if 65535 < truncQ q then 65535 else (truncQ q).toNat :=
  rfl

theorem limitUint16_of_neg (q : ℚ) (h : q < 0) : limitUint16 q = 0 := by
  have hc : ⌈q⌉ ≤ 0 := Int.ceil_le.mpr (by exact_mod_cast h.le)
  rw [limitUint16_eq]
  unfold truncQ
  rw [if_pos h]
  rcases lt_or_eq_of_le hc with hlt | heq
  · rw [if_pos hlt]
  · simp [heq]

theorem limitUint16_of_gt (q : ℚ) (h : (65535 : ℚ) < q) : limitUint16 q = 65535 := by
  have hq : ¬ q < 0 := by linarith
  have hf : (65535 : ℤ) ≤ ⌊q⌋ := Int.le_floor.mpr (by exact_mod_cast h.le)
  rw [limitUint16_eq]
  unfold truncQ
  rw [if_neg hq]
  rcases lt_or_eq_of_le hf with hlt | heq
  · rw [if_neg (by omega : ¬ ⌊q⌋ < 0), if_pos hlt]
  · rw [← heq]
    decide

theorem limitUint16_le (q : ℚ) : limitUint16 q ≤ 65535 := by
  rw [limitUint16_eq]
  split
  · omega
  · split
    · omega
    · rename_i h1 h2
      omega

/-- C3: when the z mode is not disabled, each stored motor command is
the corresponding row of the fixed mixing matrix applied to the stored
control effort, passed through `limitUint16`; and `limitUint16`
saturates to the nearest boundary (0 below the range, 65535 above it),
never wrapping. -/
theorem C3_mixing_saturation (s : CtrlState) (setpoint : Setpoint)
    (hz : ¬ setpoint.mode.z = StabMode.modeDisable) :
    (((controlStep s setpoint).1).m_1
        = limitUint16 (-3706927.3 * ((controlStep s setpoint).1).tau_x
            - 3706927.3 * ((controlStep s setpoint).1).tau_y
            - 38218981.7 * ((controlStep s setpoint).1).tau_z
            + 122328.6 * ((controlStep s setpoint).1).f_z)
      ∧ ((controlStep s setpoint).1).m_2
        = limitUint16 (-3706927.3 * ((controlStep s setpoint).1).tau_x
            + 3706927.3 * ((controlStep s setpoint).1).tau_y
            + 38218981.7 * ((controlStep s setpoint).1).tau_z
            + 122328.6 * ((controlStep s setpoint).1).f_z)
      ∧ ((controlStep s setpoint).1).m_3
        = limitUint16 (3706927.3 * ((controlStep s setpoint).1).tau_x
            + 3706927.3 * ((controlStep s setpoint).1).tau_y
            - 38218981.7 * ((controlStep s setpoint).1).tau_z
            + 122328.6 * ((controlStep s setpoint).1).f_z)
      ∧ ((controlStep s setpoint).1).m_4
        = limitUint16 (3706927.3 * ((controlStep s setpoint).1).tau_x
            - 3706927.3 * ((controlStep s setpoint).1).tau_y
            + 38218981.7 * ((controlStep s setpoint).1).tau_z
            + 122328.6 * ((controlStep s setpoint).1).f_z))
    ∧ (∀ q : ℚ, q < 0 → limitUint16 q = 0)
    ∧ (∀ q : ℚ, (65535 : ℚ) < q → limitUint16 q = 65535)
    ∧ (∀ q : ℚ, limitUint16 q ≤ 65535) := by
  refine ⟨?_, limitUint16_of_neg, limitUint16_of_gt, limitUint16_le⟩
  unfold controlStep
  rw [if_neg hz]
  exact ⟨rfl, rfl, rfl, rfl⟩

/-- Witness for C3: instantiating the saturation part at a raw value
above the range. -/
theorem C3_mixing_saturation_witness : limitUint16 (70000 : ℚ) = 65535 :=
  (C3_mixing_saturation initState ⟨⟨0, 0, 1⟩, ⟨StabMode.modeAbs⟩⟩
    (by decide)).2.2.1 70000 (by decide)

/-! ### C4 -/

/-- C4 counterexample: with a zero previous state, zero gyro, and one
buffered flow-x count, the code's new v_x differs from the value a pure
forward-Euler step on previous-tick values would give
(v_x + dt * (g * theta_prev − 0.322134 * n_x_err)), because the code's
v_x update reads the theta value already advanced this tick. -/
theorem C4_counterexample :
    ((tickBody trig0 s4 spEnabled0 sensors0 extState0).1).v_x
      ≠ s4.v_x + dt * (g * s4.theta
          - 0.322134 * (k_flow * ((s4.v_x / o_z_eq) - 0) - 1)) := by
  simp only [tickBody, s4, initState, spEnabled0, sensors0, extState0, measUpdate,
    resetStep, estimateStep, observerStep, controlStep, trig0, radians,
    k_flow, g, dt, o_z_eq]
  rw [if_neg (by decide : ¬ StabMode.modeAbs = StabMode.modeDisable)]
  norm_num

/-- C4 (amended): each integrated state variable advances by
dt times (nominal derivative + correction gain times residual), with
residuals computed from previous-tick values, except that the v_x
update reads the theta already updated this tick and the v_y update
reads the phi already updated this tick; all other reads see
previous-tick values. -/
theorem C4_forward_euler_amended (s : CtrlState) :
    (observerStep s).o_x = s.o_x + dt * s.v_x
    ∧ (observerStep s).o_y = s.o_y + dt * s.v_y
    ∧ (observerStep s).o_z = s.o_z + dt * (s.v_z - 3.524731 * (s.o_z - s.r))
    ∧ (observerStep s).psi = s.psi + dt * s.w_z
    ∧ (observerStep s).theta
        = s.theta + dt * (s.w_y
            - 0.029925 * (k_flow * ((s.v_x / o_z_eq) - s.w_y) - s.n_x))
    ∧ (observerStep s).phi
        = s.phi + dt * (s.w_x
            - (-0.024252 * (k_flow * (s.w_x + (s.v_y / o_z_eq)) - s.n_y)))
    ∧ (observerStep s).v_x
        = s.v_x + dt * (g * (observerStep s).theta
            - 0.322134 * (k_flow * ((s.v_x / o_z_eq) - s.w_y) - s.n_x))
    ∧ (observerStep s).v_y
        = s.v_y + dt * (-g * (observerStep s).phi
            - 0.317070 * (k_flow * (s.w_x + (s.v_y / o_z_eq)) - s.n_y))
    ∧ (observerStep s).v_z = s.v_z + dt * (s.a_z - g - 5.676619 * (s.o_z - s.r)) :=
  ⟨rfl, rfl, rfl, rfl, rfl, rfl, rfl, rfl, rfl⟩

/-! ### C5 -/

theorem estimateStep_of_true (t : Trig) (s : CtrlState) (st : StateExt)
    (h : s.use_observer = true) : estimateStep t s st = observerStep s := by
  unfold estimateStep
  rw [h]
  simp

theorem estimateStep_of_false (t : Trig) (s : CtrlState) (st : StateExt)
    (h : s.use_observer = false) : estimateStep t s st = passThroughStep t s st := by
  unfold estimateStep
  rw [h]
  simp

theorem resetStep_w_x (s : CtrlState) : (resetStep s).w_x = s.w_x := by
  unfold resetStep
  split <;> rfl

theorem resetStep_w_y (s : CtrlState) : (resetStep s).w_y = s.w_y := by
  unfold resetStep
  split <;> rfl

theorem resetStep_w_z (s : CtrlState) : (resetStep s).w_z = s.w_z := by
  unfold resetStep
  split <;> rfl

theorem passThroughStep_estFields_congr (t : Trig) (a b : CtrlState)
    (state : StateExt) (hx : a.w_x = b.w_x) (hy : a.w_y = b.w_y)
    (hz : a.w_z = b.w_z) :
    estFields (passThroughStep t a state) = estFields (passThroughStep t b state) := by
  simp [estFields, passThroughStep, hx, hy, hz]

/-- Pass-through characterization: when the internal observer is off,
the tick's estimate equals `passOut` of the trig abstraction, the
external state and the sensors alone. -/
theorem passthrough_characterization (t : Trig) (s : CtrlState) (sp : Setpoint)
    (sensors : SensorData) (state : StateExt) (h : s.use_observer = false) :
    estFields ((tickBody t s sp sensors state).1) = passOut t state sensors := by
  have huse : (resetStep (measUpdate t s sp sensors)).use_observer = false := by
    rw [resetStep_use_observer, measUpdate_use_observer, h]
  unfold tickBody
  rw [controlStep_fst_estFields,
      estimateStep_of_false t _ state huse]
  unfold passOut
  refine passThroughStep_estFields_congr t _ _ state ?_ ?_ ?_
  · rw [resetStep_w_x]
    rfl
  · rw [resetStep_w_y]
    rfl
  · rw [resetStep_w_z]
    rfl

/-- C5 counterexample: in pass-through mode with a previous estimated
position of 0 and an external state position of 1, the new estimated
o_x is the external 1, not the previous estimate's 0: position is not
copied through from the previous tick's estimate. -/
theorem C5_counterexample :
    ((tickBody trig0 initState spEnabled0 sensors0 st5).1).o_x ≠ initState.o_x := by
  simp only [tickBody, initState, spEnabled0, sensors0, st5, measUpdate, resetStep,
    estimateStep, passThroughStep, observerStep, controlStep, trig0, radians]
  rw [if_neg (by decide : ¬ StabMode.modeAbs = StabMode.modeDisable)]
  norm_num

/-- C5 (amended): in pass-through mode every estimate field, position
included, is recomputed each tick from the externally supplied state
and the gyro with no dependency on the previous tick's estimate, and
the position fields are copied unchanged from the externally supplied
state's position. -/
theorem C5_passthrough_amended (t : Trig) (s₁ s₂ : CtrlState) (sp₁ sp₂ : Setpoint)
    (sensors : SensorData) (state : StateExt)
    (h₁ : s₁.use_observer = false) (h₂ : s₂.use_observer = false) :
    estFields ((tickBody t s₁ sp₁ sensors state).1)
      = estFields ((tickBody t s₂ sp₂ sensors state).1)
    ∧ ((tickBody t s₁ sp₁ sensors state).1).o_x = state.position.x
    ∧ ((tickBody t s₁ sp₁ sensors state).1).o_y = state.position.y
    ∧ ((tickBody t s₁ sp₁ sensors state).1).o_z = state.position.z := by
  have hc₁ := passthrough_characterization t s₁ sp₁ sensors state h₁
  have hc₂ := passthrough_characterization t s₂ sp₂ sensors state h₂
  refine ⟨hc₁.trans hc₂.symm, ?_, ?_, ?_⟩
  · exact congrArg Prod.fst hc₁
  · exact congrArg (fun p => p.2.1) hc₁
  · exact congrArg (fun p => p.2.2.1) hc₁

/-- Witness for C5 (amended) at two concrete pass-through states with
different previous estimates. -/
theorem C5_passthrough_amended_witness :
    estFields ((tickBody trig0 initState spEnabled0 sensors0 st5).1)
      = estFields ((tickBody trig0 { initState with o_x := 42 } spEnabled0 sensors0 st5).1)
    ∧ ((tickBody trig0 initState spEnabled0 sensors0 st5).1).o_x = st5.position.x
    ∧ ((tickBody trig0 initState spEnabled0 sensors0 st5).1).o_y = st5.position.y
    ∧ ((tickBody trig0 initState spEnabled0 sensors0 st5).1).o_z = st5.position.z :=
  C5_passthrough_amended trig0 initState { initState with o_x := 42 }
    spEnabled0 spEnabled0 sensors0 st5 rfl rfl

/-! ### C6 -/

/-- C6 counterexample: at w_x = 1 with everything else zero, the code's
y flow residual is k_flow * (w_x + v_y/o_z_eq) − n_y = k_flow, not the
claimed k_flow * (v_y/o_z_eq − w_x) − n_y = −k_flow. -/
theorem C6_counterexample :
    (observerStep s6).n_y_err
      ≠ k_flow * (s6.v_y / o_z_eq - s6.w_x) - s6.n_y := by
  simp only [observerStep, s6, initState, k_flow, o_z_eq]
  norm_num

/-- C6 (amended): the y flow residual enters w_x with a plus sign:
n_y_err = k_flow * (w_x + v_y/o_z_eq) − n_y, while the x residual is
n_x_err = k_flow * (v_x/o_z_eq − w_y) − n_x. -/
theorem C6_flow_residual_amended (s : CtrlState) :
    (observerStep s).n_y_err = k_flow * (s.w_x + s.v_y / o_z_eq) - s.n_y
    ∧ (observerStep s).n_x_err = k_flow * (s.v_x / o_z_eq - s.w_y) - s.n_x :=
  ⟨rfl, rfl⟩

/-! ### C7 -/

theorem observerStep_estFields_congr (a b : CtrlState)
    (h1 : a.o_x = b.o_x) (h2 : a.o_y = b.o_y) (h3 : a.o_z = b.o_z)
    (h4 : a.psi = b.psi) (h5 : a.theta = b.theta) (h6 : a.phi = b.phi)
    (h7 : a.v_x = b.v_x) (h8 : a.v_y = b.v_y) (h9 : a.v_z = b.v_z)
    (h10 : a.w_x = b.w_x) (h11 : a.w_y = b.w_y) (h12 : a.w_z = b.w_z)
    (h13 : a.n_x = b.n_x) (h14 : a.n_y = b.n_y) (h15 : a.r = b.r)
    (h16 : a.a_z = b.a_z) :
    estFields (observerStep a) = estFields (observerStep b) := by
  simp [estFields, observerStep, h1, h2, h3, h4, h5, h6, h7, h8,
    h9, h10, h11, h12, h13, h14, h15, h16]

/-- Internal-observer characterization: with the observer on and the
reset flag clear, the tick's estimate equals `obsOut` of the previous
9 integrated state variables, the buffered range/flow samples and the
sensors alone. -/
theorem observer_characterization (t : Trig) (s : CtrlState) (sp : Setpoint)
    (sensors : SensorData) (state : StateExt)
    (hobs : s.use_observer = true) (hres : s.reset_observer = false) :
    estFields ((tickBody t s sp sensors state).1)
      = obsOut t s.o_x s.o_y s.o_z s.psi s.theta s.phi s.v_x s.v_y s.v_z
          s.tof_distance s.flow_dpixelx s.flow_dpixely sensors := by
  have hres' : (measUpdate t s sp sensors).reset_observer = false := by
    rw [measUpdate_reset_observer, hres]
  have huse : (measUpdate t s sp sensors).use_observer = true := by
    rw [measUpdate_use_observer, hobs]
  unfold tickBody
  rw [controlStep_fst_estFields, resetStep_of_false _ hres',
      estimateStep_of_true t _ state huse]
  unfold obsOut
  exact observerStep_estFields_congr _ _ rfl rfl rfl rfl rfl rfl rfl rfl
    rfl rfl rfl rfl rfl rfl rfl rfl

theorem zeroObserver_use_observer (s : CtrlState) :
    (zeroObserver s).use_observer = s.use_observer := rfl

theorem zeroObserver_tof_distance (s : CtrlState) :
    (zeroObserver s).tof_distance = s.tof_distance := rfl

theorem zeroObserver_flow_dpixelx (s : CtrlState) :
    (zeroObserver s).flow_dpixelx = s.flow_dpixelx := rfl

theorem zeroObserver_flow_dpixely (s : CtrlState) :
    (zeroObserver s).flow_dpixely = s.flow_dpixely := rfl

/-- C7 counterexample: two runs in internal-observer mode that agree on
the previous estimate, the buffered range/flow measurements, the gyro,
the z accelerometer sample and dt — but differ in the reset flag —
produce different estimates, so the output is not a function of the
claimed inputs alone. -/
theorem C7_counterexample :
    estFields s7a = estFields s7b
    ∧ s7a.tof_distance = s7b.tof_distance
    ∧ s7a.flow_dpixelx = s7b.flow_dpixelx
    ∧ s7a.flow_dpixely = s7b.flow_dpixely
    ∧ s7a.use_observer = true
    ∧ s7b.use_observer = true
    ∧ estFields ((tickBody trig0 s7a spEnabled0 sensors0 extState0).1)
        ≠ estFields ((tickBody trig0 s7b spEnabled0 sensors0 extState0).1) := by
  refine ⟨rfl, rfl, rfl, rfl, rfl, rfl, fun h => ?_⟩
  have h1 := congrArg Prod.fst h
  simp only [tickBody, s7a, s7b, initState, spEnabled0, sensors0, extState0,
    measUpdate, resetStep, estimateStep, observerStep, controlStep, trig0,
    radians, estFields, dt, k_flow, g, o_z_eq] at h1
  rw [if_neg (by decide : ¬ StabMode.modeAbs = StabMode.modeDisable),
      if_neg (by decide : ¬ StabMode.modeAbs = StabMode.modeDisable)] at h1
  norm_num at h1

/-- The pass-through output reads nothing of the sensor sample beyond
the gyro: two sensor inputs with equal gyros give the same `passOut`. -/
theorem passOut_gyro_congr (t : Trig) (state : StateExt) (sen₁ sen₂ : SensorData)
    (hg : sen₁.gyro = sen₂.gyro) : passOut t state sen₁ = passOut t state sen₂ := by
  unfold passOut
  refine passThroughStep_estFields_congr t _ _ state ?_ ?_ ?_
  · show radians t sen₁.gyro.x = radians t sen₂.gyro.x
    rw [hg]
  · show radians t sen₁.gyro.y = radians t sen₂.gyro.y
    rw [hg]
  · show radians t sen₁.gyro.z = radians t sen₂.gyro.z
    rw [hg]

/-- The observer output reads nothing of the sensor sample beyond the
gyro and the z accelerometer component: two sensor inputs agreeing on
those give the same `obsOut`. -/
theorem obsOut_sensors_congr (t : Trig)
    (oX oY oZ ps th ph vX vY vZ rng fdx fdy : ℚ) (sen₁ sen₂ : SensorData)
    (hg : sen₁.gyro = sen₂.gyro) (ha : sen₁.acc.z = sen₂.acc.z) :
    obsOut t oX oY oZ ps th ph vX vY vZ rng fdx fdy sen₁
      = obsOut t oX oY oZ ps th ph vX vY vZ rng fdx fdy sen₂ := by
  unfold obsOut
  refine observerStep_estFields_congr _ _ rfl rfl rfl rfl rfl rfl rfl rfl rfl
    ?_ ?_ ?_ rfl rfl rfl ?_
  · show radians t sen₁.gyro.x = radians t sen₂.gyro.x
    rw [hg]
  · show radians t sen₁.gyro.y = radians t sen₂.gyro.y
    rw [hg]
  · show radians t sen₁.gyro.z = radians t sen₂.gyro.z
    rw [hg]
  · show g * sen₁.acc.z = g * sen₂.acc.z
    rw [ha]

/-- C7 (amended): in internal-observer mode the new estimate is a
function of only the previous estimate, the buffered range/flow
measurements, the gyro, the z accelerometer sample, dt AND the reset
flag (the setpoint, the external state, and the other accelerometer
components may differ freely); in pass-through mode it is a function of
only the externally supplied state and the gyro — the z accelerometer
sample and the buffered observer inputs may differ freely — with the
position fields taken unchanged from the external state's position. -/
theorem C7_mode_noninterference_amended :
    (∀ (t : Trig) (s₁ s₂ : CtrlState) (sp₁ sp₂ : Setpoint)
        (sen₁ sen₂ : SensorData) (st₁ st₂ : StateExt),
      s₁.use_observer = true → s₂.use_observer = true →
      s₁.reset_observer = s₂.reset_observer →
      estFields s₁ = estFields s₂ →
      s₁.tof_distance = s₂.tof_distance →
      s₁.flow_dpixelx = s₂.flow_dpixelx →
      s₁.flow_dpixely = s₂.flow_dpixely →
      sen₁.gyro = sen₂.gyro →
      sen₁.acc.z = sen₂.acc.z →
      estFields ((tickBody t s₁ sp₁ sen₁ st₁).1)
        = estFields ((tickBody t s₂ sp₂ sen₂ st₂).1))
    ∧ (∀ (t : Trig) (s₁ s₂ : CtrlState) (sp₁ sp₂ : Setpoint)
        (sen₁ sen₂ : SensorData) (st : StateExt),
      s₁.use_observer = false → s₂.use_observer = false →
      sen₁.gyro = sen₂.gyro →
      estFields ((tickBody t s₁ sp₁ sen₁ st).1)
        = estFields ((tickBody t s₂ sp₂ sen₂ st).1)
      ∧ ((tickBody t s₁ sp₁ sen₁ st).1).o_x = st.position.x
      ∧ ((tickBody t s₁ sp₁ sen₁ st).1).o_y = st.position.y
      ∧ ((tickBody t s₁ sp₁ sen₁ st).1).o_z = st.position.z) := by
  constructor
  · intro t s₁ s₂ sp₁ sp₂ sen₁ sen₂ st₁ st₂ hu₁ hu₂ hr hest htof hfx hfy hg ha
    simp only [estFields, Prod.mk.injEq] at hest
    obtain ⟨e1, e2, e3, e4, e5, e6, e7, e8, e9, _, _, _⟩ := hest
    cases hb : s₁.reset_observer with
    | false =>
      have hb₂ : s₂.reset_observer = false := by rw [← hr, hb]
      rw [observer_characterization t s₁ sp₁ sen₁ st₁ hu₁ hb,
          observer_characterization t s₂ sp₂ sen₂ st₂ hu₂ hb₂,
          e1, e2, e3, e4, e5, e6, e7, e8, e9, htof, hfx, hfy]
      exact obsOut_sensors_congr t s₂.o_x s₂.o_y s₂.o_z s₂.psi s₂.theta s₂.phi
        s₂.v_x s₂.v_y s₂.v_z s₂.tof_distance s₂.flow_dpixelx s₂.flow_dpixely
        sen₁ sen₂ hg ha
    | true =>
      have hb₂ : s₂.reset_observer = true := by rw [← hr, hb]
      rw [tickBody_reset_elim t s₁ sp₁ sen₁ st₁ hb,
          tickBody_reset_elim t s₂ sp₂ sen₂ st₂ hb₂,
          observer_characterization t (zeroObserver s₁) sp₁ sen₁ st₁
            (by rw [zeroObserver_use_observer, hu₁]) rfl,
          observer_characterization t (zeroObserver s₂) sp₂ sen₂ st₂
            (by rw [zeroObserver_use_observer, hu₂]) rfl,
          zeroObserver_tof_distance, zeroObserver_tof_distance,
          zeroObserver_flow_dpixelx, zeroObserver_flow_dpixelx,
          zeroObserver_flow_dpixely, zeroObserver_flow_dpixely,
          htof, hfx, hfy]
      exact obsOut_sensors_congr t 0 0 0 0 0 0 0 0 0
        s₂.tof_distance s₂.flow_dpixelx s₂.flow_dpixely sen₁ sen₂ hg ha
  · intro t s₁ s₂ sp₁ sp₂ sen₁ sen₂ st hu₁ hu₂ hg
    have hc₁ := passthrough_characterization t s₁ sp₁ sen₁ st hu₁
    have hc₂ := passthrough_characterization t s₂ sp₂ sen₂ st hu₂
    refine ⟨?_, congrArg Prod.fst hc₁, congrArg (fun p => p.2.1) hc₁,
      congrArg (fun p => p.2.2.1) hc₁⟩
    rw [hc₁, hc₂]
    exact passOut_gyro_congr t st sen₁ sen₂ hg

/-- Witness for C7 (amended): the pass-through part applied to two
concrete runs whose z accelerometer samples and previous estimates
differ, agreeing on the external state and the gyro. -/
theorem C7_mode_noninterference_amended_witness :
    estFields ((tickBody trig0 initState spEnabled0 sensors0 st5).1)
      = estFields ((tickBody trig0 { initState with o_x := 42, tof_distance := 9 }
          spEnabled0 ⟨⟨0, 0, 0⟩, ⟨1, 2, 3⟩⟩ st5).1)
    ∧ ((tickBody trig0 initState spEnabled0 sensors0 st5).1).o_x = st5.position.x
    ∧ ((tickBody trig0 initState spEnabled0 sensors0 st5).1).o_y = st5.position.y
    ∧ ((tickBody trig0 initState spEnabled0 sensors0 st5).1).o_z = st5.position.z :=
  C7_mode_noninterference_amended.2 trig0 initState
    { initState with o_x := 42, tof_distance := 9 } spEnabled0 spEnabled0
    sensors0 ⟨⟨0, 0, 0⟩, ⟨1, 2, 3⟩⟩ st5 rfl rfl rfl

/-! ### C8 -/

/-- C8: at rest at the trim altitude with zero velocity, attitude and
rates, and the setpoint equal to the current position, with z mode
enabled: all torques are 0, the thrust equals the equilibrium bias
0.35217900, and the four mixed motor commands are equal. -/
theorem C8_hover_at_trim (s : CtrlState) (sp : Setpoint)
    (hz : ¬ sp.mode.z = StabMode.modeDisable)
    (_hoz : s.o_z = o_z_eq)
    (hpsi : s.psi = 0) (hth : s.theta = 0) (hphi : s.phi = 0)
    (hvx : s.v_x = 0) (hvy : s.v_y = 0) (hvz : s.v_z = 0)
    (hwx : s.w_x = 0) (hwy : s.w_y = 0) (hwz : s.w_z = 0)
    (hdx : s.o_x_des = s.o_x) (hdy : s.o_y_des = s.o_y) (hdz : s.o_z_des = s.o_z) :
    ((controlStep s sp).1).tau_x = 0
    ∧ ((controlStep s sp).1).tau_y = 0
    ∧ ((controlStep s sp).1).tau_z = 0
    ∧ ((controlStep s sp).1).f_z = 0.35217900
    ∧ ((controlStep s sp).1).m_1 = ((controlStep s sp).1).m_2
    ∧ ((controlStep s sp).1).m_2 = ((controlStep s sp).1).m_3
    ∧ ((controlStep s sp).1).m_3 = ((controlStep s sp).1).m_4 := by
  unfold controlStep
  rw [if_neg hz]
  simp only [hpsi, hth, hphi, hvx, hvy, hvz, hwx, hwy, hwz, hdx, hdy, hdz]
  norm_num

/-- Witness for C8 at the concrete trim state. -/
theorem C8_hover_at_trim_witness :
    ((controlStep trimState spEnabled0).1).tau_x = 0
    ∧ ((controlStep trimState spEnabled0).1).tau_y = 0
    ∧ ((controlStep trimState spEnabled0).1).tau_z = 0
    ∧ ((controlStep trimState spEnabled0).1).f_z = 0.35217900
    ∧ ((controlStep trimState spEnabled0).1).m_1 = ((controlStep trimState spEnabled0).1).m_2
    ∧ ((controlStep trimState spEnabled0).1).m_2 = ((controlStep trimState spEnabled0).1).m_3
    ∧ ((controlStep trimState spEnabled0).1).m_3 = ((controlStep trimState spEnabled0).1).m_4 :=
  C8_hover_at_trim trimState spEnabled0 (by decide) rfl rfl rfl rfl rfl rfl
    rfl rfl rfl rfl rfl rfl rfl

/-! ### C9 -/

/-- C9 counterexample: with the TOF sample counter at the uint16
maximum 65535, an update wraps the counter to 0, which is not strictly
greater than its value before the call. -/
theorem C9_counterexample :
    ¬ s9.tof_count < (ae483UpdateWithTOF s9 ⟨1⟩).tof_count := by
  decide

/-- C9 (amended): each ingestion call overwrites only its sensor's
buffered field(s) and replaces that sensor's counter by its successor
modulo 2^16 — strictly increasing whenever the counter is below the
uint16 maximum, wrapping to 0 at 65535; no other field changes. -/
theorem C9_buffer_update_amended (s : CtrlState) (tof : TofMeasurement)
    (flow : FlowMeasurement) :
    ae483UpdateWithTOF s tof
      = { s with
          tof_distance := tof.distance
          tof_count := (s.tof_count + 1) % 65536 }
    ∧ ae483UpdateWithFlow s flow
      = { s with
          flow_dpixelx := flow.dpixelx
          flow_dpixely := flow.dpixely
          flow_count := (s.flow_count + 1) % 65536 }
    ∧ (s.tof_count < 65535 → s.tof_count < (ae483UpdateWithTOF s tof).tof_count)
    ∧ (s.flow_count < 65535 → s.flow_count < (ae483UpdateWithFlow s flow).flow_count) := by
  refine ⟨rfl, rfl, fun h => ?_, fun h => ?_⟩
  · show s.tof_count < (s.tof_count + 1) % 65536
    omega
  · show s.flow_count < (s.flow_count + 1) % 65536
    omega

/-- Witness for C9 (amended): a strict counter increase below the
uint16 maximum. -/
theorem C9_buffer_update_amended_witness :
    initState.tof_count < (ae483UpdateWithTOF initState ⟨2⟩).tof_count :=
  (C9_buffer_update_amended initState ⟨2⟩ ⟨3, 4⟩).2.2.1 (by decide)

/-! ### C10 -/

theorem controlStep_disabled (s : CtrlState) (sp : Setpoint)
    (hz : sp.mode.z = StabMode.modeDisable) :
    controlStep s sp = (s, (0, 0, 0, 0)) := by
  unfold controlStep
  rw [if_pos hz]

theorem measUpdate_ctrlFields (t : Trig) (s : CtrlState) (sp : Setpoint)
    (sen : SensorData) : ctrlFields (measUpdate t s sp sen) = ctrlFields s :=
  rfl

theorem resetStep_ctrlFields (s : CtrlState) :
    ctrlFields (resetStep s) = ctrlFields s := by
  unfold resetStep
  split <;> rfl

theorem estimateStep_ctrlFields (t : Trig) (s : CtrlState) (st : StateExt) :
    ctrlFields (estimateStep t s st) = ctrlFields s := by
  unfold estimateStep observerStep passThroughStep
  split <;> rfl

/-- C10: on a disabled tick, the stored control efforts and motor
commands keep their values from the last enabled tick (they are not
zeroed) even though (0,0,0,0) power is commanded, and the estimation
step still runs and produces this tick's estimate. -/
theorem C10_disabled_frame (t : Trig) (s : CtrlState) (sp : Setpoint)
    (sensors : SensorData) (state : StateExt)
    (hz : sp.mode.z = StabMode.modeDisable) :
    ctrlFields ((tickBody t s sp sensors state).1) = ctrlFields s
    ∧ estFields ((tickBody t s sp sensors state).1)
        = estFields (estimateStep t (resetStep (measUpdate t s sp sensors)) state)
    ∧ (tickBody t s sp sensors state).2 = (0, 0, 0, 0) := by
  unfold tickBody
  rw [controlStep_disabled _ _ hz]
  dsimp only
  refine ⟨?_, rfl, rfl⟩
  rw [estimateStep_ctrlFields, resetStep_ctrlFields, measUpdate_ctrlFields]

/-- Witness for C10 at a concrete state carrying nonzero stored efforts
and commands. -/
theorem C10_disabled_frame_witness :
    ctrlFields ((tickBody trig0 sC10 ⟨⟨0, 0, 0⟩, ⟨StabMode.modeDisable⟩⟩
        sensors0 extState0).1) = ctrlFields sC10 :=
  (C10_disabled_frame trig0 sC10 ⟨⟨0, 0, 0⟩, ⟨StabMode.modeDisable⟩⟩
    sensors0 extState0 rfl).1

end AE483
